import Mathlib

/-!
Shallow embedding of `legal_chatbot.py` (a command-line legal-assistant chat
client) and proofs about its orchestration logic: document loading
(plain-text and PDF extraction), credential startup, and the interactive
chat loop with its transcript invariants.

External collaborators (the PyMuPDF extraction engine, the OpenAI completion
service, the console) are modelled as explicit parameters: a file system
maps paths to file models whose read/extract operations may fail, and the
completion service is an oracle from transcripts to `Except`-valued replies.
Python exceptions are modelled with `Except`; a `try/except` is a `match`.
-/

namespace LegalChatbot

/-- Python `str.strip()`: drop whitespace from both ends (ASCII model). -/
def pyStrip (s : String) : String :=
  String.mk (((s.toList.dropWhile Char.isWhitespace).reverse.dropWhile Char.isWhitespace).reverse)

/-- Python `str.lower()` (ASCII model, via `Char.toLower`). -/
def pyLower (s : String) : String :=
  String.mk (s.toList.map Char.toLower)

/-- The extension part of Python `os.path.splitext(path)` (posix rules):
the suffix of the final path component starting at its last dot, unless the
characters before that dot within the component are all dots (so `.bashrc`
has no extension). -/
def splitext_ext (p : String) : String :=
  let base := (p.toList.reverse.takeWhile (fun c => c ≠ '/')).reverse
  let rext := base.reverse.takeWhile (fun c => c ≠ '.')
  if rext.length = base.length then ""
  else
    let stem := base.take (base.length - rext.length - 1)
    if stem.any (fun c => c ≠ '.') then String.mk ('.' :: rext.reverse) else ""

/-- Model of one on-disk file, as seen by the two ways the program reads it:
`utf8Read` is the outcome of `open(path, "r", encoding="utf-8").read()`
(`.error` = I/O or decode exception); `pdfOpen` is the outcome of
`fitz.open(path)` followed by listing the pages, each page carrying the
outcome of its `page.get_text()` call (`.error` = that call raises). -/
structure FileModel where
  utf8Read : Except String String
  pdfOpen : Except String (List (Except String String))

/-- A file system: paths to files; `none` = `os.path.exists` is false. -/
def FS : Type := String → Option FileModel

/-- Outcome of `extract_text_from_pdf`: the returned string, whether a
document handle was successfully opened (`fitz.open` returned), and whether
`doc.close()` was executed before the function returned. -/
structure PdfExtractOutcome where
  result : String
  opened : Bool
  closed : Bool
deriving DecidableEq

/-- The list comprehension `[page.get_text() for page in doc]`: evaluates
page extractions in document order; the first raising page aborts the
comprehension with that exception. -/
def collect_pages : List (Except String String) → Except String (List String)
  | [] => .ok []
  | .error e :: _ => .error e
  | .ok t :: rest =>
    match collect_pages rest with
    | .ok ts => .ok (t :: ts)
    | .error e => .error e

/-- `extract_text_from_pdf(pdf_path)` (lines 144-156): inside `try`, open the
document, extract every page, call `doc.close()`, and return the page texts
joined by a double newline; `except Exception` catches any failure and
returns `""`. Note the source has no `finally`: when a `page.get_text()`
raises, control jumps to the handler without executing `doc.close()`, so on
that path `closed = false` although `opened = true`. -/
def extract_text_from_pdf (fs : FS) (pdf_path : String) : PdfExtractOutcome :=
  match fs pdf_path with
  | none => ⟨"", false, false⟩
  | some f =>
    match f.pdfOpen with
    | .error _ => ⟨"", false, false⟩
    | .ok pages =>
      match collect_pages pages with
      | .ok texts => ⟨String.intercalate "\n\n" texts, true, true⟩
      | .error _ => ⟨"", true, false⟩

/-- The body of the `try` block of `extract_text_from_file(file_path)`
(lines 127-139), with exceptions as `Except.error`: a missing path prints and
returns `""` (no exception); a `.pdf` extension dispatches to
`extract_text_from_pdf` (which never raises, having its own handler); any
other extension reads the file as UTF-8, whose failure propagates to the
enclosing handler. -/
def extract_text_from_file_body (fs : FS) (p : String) : Except String String :=
  match fs p with
  | none => .ok ""
  | some f =>
    if pyLower (splitext_ext p) == ".pdf" then
      .ok (extract_text_from_pdf fs p).result
    else
      f.utf8Read

/-- `extract_text_from_file` with its `except Exception` handler made
explicit in the type: the handler maps any escaping exception to a normal
return of `""`, so the function presents `Except.ok` to its caller. -/
def extract_text_from_fileE (fs : FS) (p : String) : Except String String :=
  match extract_text_from_file_body fs p with
  | .ok s => .ok s
  | .error _ => .ok ""

/-- `extract_text_from_file(file_path)` (lines 123-142) as the string it
returns: the `try` body, with any caught exception yielding `""`. -/
def extract_text_from_file (fs : FS) (p : String) : String :=
  match extract_text_from_file_body fs p with
  | .ok s => s
  | .error _ => ""

/-- `create_system_prompt(judgment_text)` (lines 15-47): the f-string system
prompt with the judgment text interpolated after the JUDGMENT CONTEXT
heading. -/
def create_system_prompt (judgment_text : String) : String :=
  "\nYou are an expert legal assistant with extensive knowledge of laws, procedures, and legal interpretation.\nJUDGMENT CONTEXT:\n"
    ++ judgment_text
    ++ "\nYour expertise includes:\n- Statutory interpretation and application\n- Case law analysis and precedent\n- Legal procedure and strategy\n- Contract law and interpretation\n- Civil and criminal litigation\n- Regulatory compliance\n- Industry-specific legal frameworks\n\nWhen responding to queries:\n1. Provide practical, actionable insights based on the judgment text when relevant.\n2. Reference specific sections of the judgment or related laws when appropriate.\n3. Use polite, professional legal terminology that practicing lawyers would appreciate.\n4. Acknowledge jurisdictional considerations when relevant.\n5. Maintain a balanced, objective analysis of legal issues.\n6. Clarify when a question requires additional context or jurisdiction-specific analysis.\n7. Present potential arguments from multiple perspectives when appropriate.\n\nYour tone should be:\n- Professional but conversational\n- Precise without excessive jargon\n- Respectful of legal traditions\n- Thoughtful and measured\n- Confident but not absolute in areas of legal ambiguity\n\nRemember that your responses should be relevant to legal practice, practical for lawyers, clear and well-defined, demonstrate depth of knowledge, and be applicable to real-world legal scenarios.\nYou should not provide legal advice that establishes an attorney-client relationship, and you should clarify that your responses are for informational purposes only.\n"

/-- Roles of the OpenAI chat message dictionaries. -/
inductive Role
  | system
  | user
  | assistant
deriving DecidableEq

/-- One entry of the `messages` list: a role/content dictionary. -/
structure Msg where
  role : Role
  content : String
deriving DecidableEq

/-- The exit-token list of line 92: `["exit", "quit", "q"]`. -/
def exit_tokens : List String := ["exit", "quit", "q"]

/-- One outcome of the `input("\nYou: ")` call of line 87: a line of input,
or an `EOFError`/`KeyboardInterrupt` (modelled together, both are handled by
the same `except` clause on line 88). -/
inductive InputEvent
  | line (raw : String)
  | eof
deriving DecidableEq

/-- Externally visible side effects of one loop iteration, beyond console
prints: a call to `client.chat.completions.create` with the transcript it
carried, or a (hypothetical) re-invocation of the document loader — the loop
body contains no call to `extract_text_from_file`, so no step ever emits
`loaderCall`. -/
inductive LoopEvent
  | completionCall (transcript : List Msg)
  | loaderCall (path : String)
deriving DecidableEq

/-- Result of one iteration of the `while True` loop: the `messages` list
after the iteration, the console lines it printed (decorative prints such as
the `Thinking...` spinner and separator rules are elided), the external
calls it made, and whether it executed `break`. -/
structure StepOut where
  msgs : List Msg
  output : List String
  events : List LoopEvent
  terminated : Bool
deriving DecidableEq

/-- One iteration of the chat loop of `chat_with_openai` (lines 85-121):
read input (strip it); on EOF/interrupt print and break; on an exit token
(lowercased) print the farewell and break; skip empty input; on `clear`
reset `messages` to the single system turn; otherwise append the user turn,
call the completion service with the full transcript and either append and
print the assistant reply or — when the call raises — print
`Error: {e}` and fall through to the next iteration with the user turn
still appended. -/
def chat_step (oracle : List Msg → Except String String) (system_prompt : String)
    (msgs : List Msg) (inp : InputEvent) : StepOut :=
  match inp with
  | .eof => ⟨msgs, ["\nExiting..."], [], true⟩
  | .line raw =>
    let user_input := pyStrip raw
    if exit_tokens.contains (pyLower user_input) then
      ⟨msgs, ["\nGoodbye! Thank you for using the Legal Assistant."], [], true⟩
    else if user_input == "" then
      ⟨msgs, [], [], false⟩
    else if pyLower user_input == "clear" then
      ⟨[⟨Role.system, system_prompt⟩], ["\nConversation cleared. Starting fresh."], [], false⟩
    else
      let msgs1 := msgs ++ [⟨Role.user, user_input⟩]
      match oracle msgs1 with
      | .ok reply =>
        ⟨msgs1 ++ [⟨Role.assistant, reply⟩], ["\nAssistant:\n", reply], [.completionCall msgs1], false⟩
      | .error e =>
        ⟨msgs1, ["\nError: " ++ e], [.completionCall msgs1], false⟩

/-- The initial `messages` list of line 70: exactly one system turn. -/
def chat_init (system_prompt : String) : List Msg :=
  [⟨Role.system, system_prompt⟩]

/-- Accumulated state of a running chat session. -/
structure RunState where
  msgs : List Msg
  output : List String
  events : List LoopEvent
  terminated : Bool

/-- Run the chat loop over a list of input events. Once an iteration
executes `break` the remaining events are not consumed (the process has left
the loop). -/
def run_loop (oracle : List Msg → Except String String) (sys : String) :
    RunState → List InputEvent → RunState
  | st, [] => st
  | st, inp :: rest =>
    if st.terminated then st
    else
      let so := chat_step oracle sys st.msgs inp
      run_loop oracle sys ⟨so.msgs, st.output ++ so.output, st.events ++ so.events, so.terminated⟩ rest

/-- `chat_with_openai(client, judgment_text)` (lines 61-121): build the
system prompt once, start from the single-system-turn transcript, and run
the loop on the session input. The static banner prints of lines 72-83 are
console-only and elided from `output`. -/
def chat_with_openai (oracle : List Msg → Except String String) (judgment_text : String)
    (inputs : List InputEvent) : RunState :=
  let system_prompt := create_system_prompt judgment_text
  run_loop oracle system_prompt ⟨chat_init system_prompt, [], [], false⟩ inputs

/-- A process environment: variable names to values. -/
def Env : Type := String → Option String

/-- `load_dotenv()` (line 53): merge the key/value pairs of a local `.env`
file into the environment; values already present in the process environment
are not overridden. -/
def load_dotenv (env : Env) (dotenvFile : List (String × String)) : Env :=
  fun k =>
    match env k with
    | some v => some v
    | none => (dotenvFile.find? (fun kv => kv.1 == k)).map (fun kv => kv.2)

/-- The `ValueError` message raised on line 55. -/
def key_error_msg : String :=
  "OPENAI_API_KEY environment variable not found. Please check your .env file."

/-- `initialize_openai()` (lines 49-59, Lean name shortened): after
`load_dotenv`, raise a `ValueError` when `OPENAI_API_KEY` is absent from the
environment, otherwise construct the client and return it. -/
def init_openai (env : Env) (dotenvFile : List (String × String)) : Except String Unit :=
  match load_dotenv env dotenvFile "OPENAI_API_KEY" with
  | none => .error key_error_msg
  | some _ => .ok ()

/-- The hard-coded judgment path of line 161. -/
def judgment_file : String := "data/DelhiHC_March_2025[1].pdf"

/-- Observable outcome of one whole process run: its exit status, whether
the chat loop was entered, and the (modelled) console output. -/
structure MainOutcome where
  exitCode : Nat
  chatStarted : Bool
  output : List String

/-- The `__main__` block (lines 158-168): initialize the client, load the
judgment, warn when it is empty, and run the chat loop; any exception
escaping those steps (in particular the missing-credential `ValueError`) is
caught by the `except` on line 167, which prints `Critical Error: {e}` and
lets the block finish normally — the interpreter then exits with status 0. -/
def main_run (env : Env) (dotenvFile : List (String × String)) (fs : FS)
    (oracle : List Msg → Except String String) (inputs : List InputEvent) : MainOutcome :=
  match init_openai env dotenvFile with
  | .error msg => ⟨0, false, ["Critical Error: " ++ msg]⟩
  | .ok _ =>
    let judgment_text := extract_text_from_file fs judgment_file
    let warn := if judgment_text == "" then ["Warning: No text could be extracted from the judgment file."] else []
    let final := chat_with_openai oracle judgment_text inputs
    ⟨0, true,
      ["OpenAI client initialized successfully.", "Loading judgment from: " ++ judgment_file]
        ++ warn ++ final.output⟩

/-- A completion service that always answers with a fixed reply. -/
def oracle_ok : List Msg → Except String String :=
  fun _ => .ok "Clause 4 sets the notice period."

/-- A completion service whose every call raises. -/
def oracle_err : List Msg → Except String String :=
  fun _ => .error "connection reset"

/-- A file system with no files. -/
def fs_empty : FS := fun _ => none

/-- An environment with no variables set. -/
def env_empty : Env := fun _ => none

/-- A two-page PDF whose second `page.get_text()` raises. -/
def pdf_bad_page : FileModel :=
  ⟨Except.error "binary data is not valid utf-8",
   Except.ok [Except.ok "page one text", Except.error "mupdf: cannot decode page"]⟩

/-- File system holding only the broken PDF. -/
def fs_bad_pdf : FS :=
  fun p => if p == "data/broken.pdf" then some pdf_bad_page else none

/-- The plain-text judgment file of the specification example. -/
def notes_txt : FileModel :=
  ⟨Except.ok "Clause 4 governs termination.", Except.error "not a pdf"⟩

/-- File system holding only `notes.txt`. -/
def fs_notes : FS :=
  fun p => if p == "notes.txt" then some notes_txt else none

/-- A well-formed two-page PDF. -/
def pdf_two_pages : FileModel :=
  ⟨Except.error "binary data is not valid utf-8",
   Except.ok [Except.ok "First page.", Except.ok "Second page."]⟩

/-- File system holding only `case.pdf`. -/
def fs_pdf : FS :=
  fun p => if p == "case.pdf" then some pdf_two_pages else none

/-- No `loaderCall` event occurs in the list. -/
def loader_free (l : List LoopEvent) : Prop :=
  ∀ p : String, LoopEvent.loaderCall p ∉ l

example : pyStrip "  hi there \n" = "hi there" := by decide
example : pyLower " QUIT " = " quit " := by decide
example : splitext_ext "data/DelhiHC_March_2025[1].PDF" = ".PDF" := by decide
example : splitext_ext "dir.d/noext" = "" := by decide
example : splitext_ext ".bashrc" = "" := by decide
example : extract_text_from_file (fun _ => none) "gone.txt" = "" := by decide

/-- Sequencing a comprehension whose page extractions all succeed yields the
texts in order. -/
theorem collect_pages_map_ok (texts : List String) :
    collect_pages (texts.map Except.ok) = Except.ok texts := by
  induction texts with
  | nil => rfl
  | cons t ts ih => simp [collect_pages, ih]

/-- One loop iteration either leaves `messages` unchanged, appends to it, or
resets it to the single-system-turn list. -/
theorem chat_step_msgs_shape (oracle : List Msg → Except String String) (sys : String)
    (msgs : List Msg) (inp : InputEvent) :
    (chat_step oracle sys msgs inp).msgs = msgs
    ∨ (∃ t, (chat_step oracle sys msgs inp).msgs = msgs ++ t)
    ∨ (chat_step oracle sys msgs inp).msgs = chat_init sys := by
  cases inp with
  | eof => exact Or.inl rfl
  | line raw =>
    by_cases h1 : pyLower (pyStrip raw) ∈ exit_tokens
    · exact Or.inl (by simp [chat_step, h1])
    · by_cases h2 : pyStrip raw = ""
      · have hx : pyLower "" ∉ exit_tokens := by decide
        exact Or.inl (by simp [chat_step, h1, h2, hx])
      · by_cases h3 : pyLower (pyStrip raw) = "clear"
        · have hc : ("clear" : String) ∉ exit_tokens := by decide
          exact Or.inr (Or.inr (by simp [chat_step, h1, h2, h3, hc, chat_init]))
        · cases h4 : oracle (msgs ++ [⟨Role.user, pyStrip raw⟩]) with
          | ok r =>
            exact Or.inr (Or.inl ⟨[⟨Role.user, pyStrip raw⟩, ⟨Role.assistant, r⟩],
              by simp [chat_step, h1, h2, h3, h4]⟩)
          | error e =>
            exact Or.inr (Or.inl ⟨[⟨Role.user, pyStrip raw⟩],
              by simp [chat_step, h1, h2, h3, h4]⟩)

/-- Running the loop preserves the head system turn. -/
theorem run_loop_head_invariant (oracle : List Msg → Except String String) (sys : String) :
    ∀ (inputs : List InputEvent) (st : RunState),
      st.msgs.head? = some ⟨Role.system, sys⟩ →
      (run_loop oracle sys st inputs).msgs.head? = some ⟨Role.system, sys⟩ := by
  intro inputs
  induction inputs with
  | nil => exact fun st h => h
  | cons inp rest ih =>
    intro st h
    rw [run_loop]
    by_cases ht : st.terminated = true
    · simpa [ht] using h
    · rw [Bool.not_eq_true] at ht
      simp only [ht, Bool.false_eq_true, if_false]
      apply ih
      rcases chat_step_msgs_shape oracle sys st.msgs inp with hs | ⟨t, hs⟩ | hs
      · simpa [hs] using h
      · show (chat_step oracle sys st.msgs inp).msgs.head? = _
        rw [hs]
        cases hm : st.msgs with
        | nil => rw [hm] at h; cases h
        | cons a l =>
          rw [hm] at h
          simpa using h
      · show (chat_step oracle sys st.msgs inp).msgs.head? = _
        rw [hs]
        rfl

/-- No iteration of the loop body ever calls the document loader. -/
theorem chat_step_events_loader_free (oracle : List Msg → Except String String)
    (sys : String) (msgs : List Msg) (inp : InputEvent) :
    loader_free (chat_step oracle sys msgs inp).events := by
  intro p hp
  cases inp with
  | eof => simp [chat_step] at hp
  | line raw =>
    simp only [chat_step] at hp
    split at hp
    · simp at hp
    · split at hp
      · simp at hp
      · split at hp
        · simp at hp
        · split at hp <;> simp at hp

/-- Running the loop adds no loader calls to the event trace. -/
theorem run_loop_loader_free (oracle : List Msg → Except String String) (sys : String) :
    ∀ (inputs : List InputEvent) (st : RunState),
      loader_free st.events →
      loader_free (run_loop oracle sys st inputs).events := by
  intro inputs
  induction inputs with
  | nil => exact fun st h => h
  | cons inp rest ih =>
    intro st h
    rw [run_loop]
    by_cases ht : st.terminated = true
    · simpa [ht] using h
    · rw [Bool.not_eq_true] at ht
      simp only [ht, Bool.false_eq_true, if_false]
      apply ih
      intro p hp
      dsimp at hp
      rcases List.mem_append.1 hp with h1 | h2
      · exact h p h1
      · exact chat_step_events_loader_free oracle sys st.msgs inp p h2

/-- C1: the claim says the PDF document handle is closed on every exit path
of `extract_text_from_pdf`, including the caught per-page failure path. The
code has no `finally`: on the PDF `data/broken.pdf`, whose second
`page.get_text()` raises, the routine returns `""` with the handle it opened
still unclosed (`opened = true`, `closed = false`), so the claim fails on
that path while the loader still reports the empty string. -/
theorem pdf_handle_left_open_on_page_error :
    extract_text_from_pdf fs_bad_pdf "data/broken.pdf"
      = ⟨"", true, false⟩
    ∧ extract_text_from_file fs_bad_pdf "data/broken.pdf" = "" :=
  ⟨by decide, by decide⟩

/-- C2: `extract_text_from_file` never raises to its caller: with its
`except Exception` handler made explicit, every call returns `Except.ok` of
the string the function yields, and a nonexistent path yields `""`. -/
theorem extract_text_never_raises :
    ∀ (fs : FS) (p : String),
      extract_text_from_fileE fs p = Except.ok (extract_text_from_file fs p)
      ∧ (fs p = none → extract_text_from_file fs p = "") := by
  intro fs p
  constructor
  · unfold extract_text_from_fileE extract_text_from_file
    cases extract_text_from_file_body fs p <;> rfl
  · intro h
    simp [extract_text_from_file, extract_text_from_file_body, h]

/-- Witness for C2 at a concrete nonexistent path. -/
theorem extract_text_never_raises_witness :
    fs_empty "missing.txt" = none ∧ extract_text_from_file fs_empty "missing.txt" = "" :=
  ⟨rfl, (extract_text_never_raises fs_empty "missing.txt").2 rfl⟩

/-- C3 counterexample: with `OPENAI_API_KEY` absent everywhere, the
`__main__` block catches the `ValueError`, prints `Critical Error: ...`, and
finishes normally, so the process exits with status 0 — not the non-zero
failure status the claim asserts. The chat loop is indeed never entered. -/
theorem missing_key_exit_status_zero_counterexample :
    (main_run env_empty [] fs_empty oracle_ok []).exitCode = 0
    ∧ (main_run env_empty [] fs_empty oracle_ok []).chatStarted = false
    ∧ (main_run env_empty [] fs_empty oracle_ok []).output
        = ["Critical Error: " ++ key_error_msg] :=
  ⟨rfl, rfl, rfl⟩

/-- C3 (amended): when the credential variable is absent from the process
environment and the `.env` file, the program prints the descriptive
`Critical Error:` message and terminates without starting the chat loop, but
with exit status 0 (the startup `ValueError` is caught by the top-level
`except`, which only prints). -/
theorem missing_key_prints_and_skips_chat :
    ∀ (env : Env) (dotenvFile : List (String × String)) (fs : FS)
      (oracle : List Msg → Except String String) (inputs : List InputEvent),
      load_dotenv env dotenvFile "OPENAI_API_KEY" = none →
      (main_run env dotenvFile fs oracle inputs).exitCode = 0
      ∧ (main_run env dotenvFile fs oracle inputs).chatStarted = false
      ∧ (main_run env dotenvFile fs oracle inputs).output
          = ["Critical Error: " ++ key_error_msg] := by
  intro env dotenvFile fs oracle inputs h
  simp [main_run, init_openai, h]

/-- Witness for C3 (amended) at the empty environment. -/
theorem missing_key_prints_and_skips_chat_witness :
    load_dotenv env_empty [] "OPENAI_API_KEY" = none
    ∧ (main_run env_empty [] fs_empty oracle_ok []).chatStarted = false :=
  ⟨rfl, (missing_key_prints_and_skips_chat env_empty [] fs_empty oracle_ok [] rfl).2.1⟩

/-- C4: in every reachable state of the chat loop the first transcript entry
is the system turn; each iteration either leaves the transcript unchanged,
appends turns to it, or — exactly on a trimmed lowercased `clear` input —
resets it to the single system turn. -/
theorem transcript_system_turn_invariant :
    ∀ (oracle : List Msg → Except String String) (judgment : String) (inputs : List InputEvent),
      (chat_with_openai oracle judgment inputs).msgs.head?
          = some ⟨Role.system, create_system_prompt judgment⟩
      ∧ (∀ (msgs : List Msg) (inp : InputEvent),
          (chat_step oracle (create_system_prompt judgment) msgs inp).msgs = msgs
          ∨ (∃ t, (chat_step oracle (create_system_prompt judgment) msgs inp).msgs = msgs ++ t)
          ∨ (chat_step oracle (create_system_prompt judgment) msgs inp).msgs
              = chat_init (create_system_prompt judgment))
      ∧ (∀ (msgs : List Msg) (raw : String),
          pyLower (pyStrip raw) = "clear" →
          (chat_step oracle (create_system_prompt judgment) msgs (InputEvent.line raw)).msgs
            = chat_init (create_system_prompt judgment)) := by
  intro oracle judgment inputs
  refine ⟨?_, fun msgs inp => chat_step_msgs_shape oracle _ msgs inp, fun msgs raw h => ?_⟩
  · unfold chat_with_openai
    exact run_loop_head_invariant oracle _ inputs _ rfl
  · have hc : ("clear" : String) ∉ exit_tokens := by decide
    have hne : pyStrip raw ≠ "" := by
      intro hb
      rw [hb] at h
      exact absurd h (by decide)
    simp [chat_step, h, hc, hne, chat_init]

/-- Witness for C4: a concrete `clear` (in mixed case, padded) resets a
two-turn transcript to the single system turn. -/
theorem transcript_system_turn_invariant_witness :
    pyLower (pyStrip " CLEAR ") = "clear"
    ∧ (chat_step oracle_ok (create_system_prompt "J")
        [⟨Role.system, create_system_prompt "J"⟩, ⟨Role.user, "hi"⟩]
        (InputEvent.line " CLEAR ")).msgs
      = chat_init (create_system_prompt "J") :=
  ⟨by decide,
   (transcript_system_turn_invariant oracle_ok "J" []).2.2
     [⟨Role.system, create_system_prompt "J"⟩, ⟨Role.user, "hi"⟩] " CLEAR " (by decide)⟩

/-- C5: when the completion call raises, the iteration catches it, prints
`Error:` followed by the message, keeps the appended user turn with no
assistant turn (no rollback), and leaves the loop ready for the next input
(`terminated = false`). -/
theorem completion_failure_keeps_user_turn :
    ∀ (oracle : List Msg → Except String String) (sys raw e : String) (msgs : List Msg),
      pyLower (pyStrip raw) ∉ exit_tokens →
      pyStrip raw ≠ "" →
      pyLower (pyStrip raw) ≠ "clear" →
      oracle (msgs ++ [⟨Role.user, pyStrip raw⟩]) = Except.error e →
      chat_step oracle sys msgs (InputEvent.line raw)
        = ⟨msgs ++ [⟨Role.user, pyStrip raw⟩], ["\nError: " ++ e],
           [LoopEvent.completionCall (msgs ++ [⟨Role.user, pyStrip raw⟩])], false⟩ := by
  intro oracle sys raw e msgs h1 h2 h3 h4
  simp [chat_step, h1, h2, h3, h4]

/-- Witness for C5: a failing completion call on a concrete question. -/
theorem completion_failure_keeps_user_turn_witness :
    pyStrip "What does clause 4 say?" ≠ ""
    ∧ chat_step oracle_err "S" (chat_init "S") (InputEvent.line "What does clause 4 say?")
      = ⟨chat_init "S" ++ [⟨Role.user, pyStrip "What does clause 4 say?"⟩],
         ["\nError: connection reset"],
         [LoopEvent.completionCall (chat_init "S" ++ [⟨Role.user, pyStrip "What does clause 4 say?"⟩])],
         false⟩ :=
  ⟨by decide,
   completion_failure_keeps_user_turn oracle_err "S" "What does clause 4 say?" "connection reset"
     (chat_init "S") (by decide) (by decide) (by decide) rfl⟩

/-- C6: an existing file whose (lowercased) extension is not `.pdf` and
whose contents decode as UTF-8 is returned exactly as its decoded
contents. -/
theorem text_file_returns_exact_contents :
    ∀ (fs : FS) (p : String) (f : FileModel) (s : String),
      fs p = some f →
      pyLower (splitext_ext p) ≠ ".pdf" →
      f.utf8Read = Except.ok s →
      extract_text_from_file fs p = s := by
  intro fs p f s h1 h2 h3
  simp [extract_text_from_file, extract_text_from_file_body, h1, h2, h3]

/-- Witness for C6: the specification example file `notes.txt`. -/
theorem text_file_returns_exact_contents_witness :
    extract_text_from_file fs_notes "notes.txt" = "Clause 4 governs termination." :=
  text_file_returns_exact_contents fs_notes "notes.txt" notes_txt
    "Clause 4 governs termination." rfl (by decide) rfl

/-- C7: a PDF whose per-page extraction succeeds loads as the page texts
joined by the two-character separator, in page order. -/
theorem pdf_loader_joins_pages :
    ∀ (fs : FS) (p : String) (f : FileModel) (texts : List String),
      fs p = some f →
      pyLower (splitext_ext p) = ".pdf" →
      f.pdfOpen = Except.ok (texts.map Except.ok) →
      extract_text_from_file fs p = String.intercalate "\n\n" texts := by
  intro fs p f texts h1 h2 h3
  simp [extract_text_from_file, extract_text_from_file_body, extract_text_from_pdf,
    h1, h2, h3, collect_pages_map_ok]

/-- Witness for C7: a concrete two-page PDF. -/
theorem pdf_loader_joins_pages_witness :
    extract_text_from_file fs_pdf "case.pdf" = "First page.\n\nSecond page." :=
  pdf_loader_joins_pages fs_pdf "case.pdf" pdf_two_pages
    ["First page.", "Second page."] rfl (by decide) rfl

/-- C8: an input whose trimmed lowercased form is an exit token prints the
farewell and breaks out of the loop, with no completion call (empty event
list) and the transcript unchanged. -/
theorem exit_token_terminates_loop :
    ∀ (oracle : List Msg → Except String String) (sys raw : String) (msgs : List Msg),
      pyLower (pyStrip raw) ∈ exit_tokens →
      chat_step oracle sys msgs (InputEvent.line raw)
        = ⟨msgs, ["\nGoodbye! Thank you for using the Legal Assistant."], [], true⟩ := by
  intro oracle sys raw msgs h
  simp [chat_step, h]

/-- Witness for C8: the padded upper-case input ` QUIT `. -/
theorem exit_token_terminates_loop_witness :
    pyLower (pyStrip " QUIT ") ∈ exit_tokens
    ∧ chat_step oracle_ok "S" (chat_init "S") (InputEvent.line " QUIT ")
      = ⟨chat_init "S", ["\nGoodbye! Thank you for using the Legal Assistant."], [], true⟩ :=
  ⟨by decide, exit_token_terminates_loop oracle_ok "S" " QUIT " (chat_init "S") (by decide)⟩

/-- C9: command recognition is by exact match on the trimmed lowercased
input: any non-command, non-empty input is appended as a user turn and
forwarded to the completion service (exactly one completion call carrying
the transcript ending in that user turn), and the loop does not
terminate. -/
theorem noncommand_input_is_forwarded :
    ∀ (oracle : List Msg → Except String String) (sys raw : String) (msgs : List Msg),
      pyLower (pyStrip raw) ∉ exit_tokens →
      pyStrip raw ≠ "" →
      pyLower (pyStrip raw) ≠ "clear" →
      ∃ rest,
        (chat_step oracle sys msgs (InputEvent.line raw)).msgs
            = msgs ++ [⟨Role.user, pyStrip raw⟩] ++ rest
        ∧ (chat_step oracle sys msgs (InputEvent.line raw)).events
            = [LoopEvent.completionCall (msgs ++ [⟨Role.user, pyStrip raw⟩])]
        ∧ (chat_step oracle sys msgs (InputEvent.line raw)).terminated = false := by
  intro oracle sys raw msgs h1 h2 h3
  cases h4 : oracle (msgs ++ [⟨Role.user, pyStrip raw⟩]) with
  | ok r =>
    exact ⟨[⟨Role.assistant, r⟩], by simp [chat_step, h1, h2, h3, h4]⟩
  | error e =>
    exact ⟨[], by simp [chat_step, h1, h2, h3, h4]⟩

/-- Witness for C9: `exit now` contains the token `exit` as a proper prefix
but is not a command — it is appended and forwarded. -/
theorem noncommand_input_is_forwarded_witness :
    pyLower (pyStrip "exit now") ∉ exit_tokens
    ∧ ∃ rest,
        (chat_step oracle_ok "S" (chat_init "S") (InputEvent.line "exit now")).msgs
            = chat_init "S" ++ [⟨Role.user, pyStrip "exit now"⟩] ++ rest
        ∧ (chat_step oracle_ok "S" (chat_init "S") (InputEvent.line "exit now")).events
            = [LoopEvent.completionCall (chat_init "S" ++ [⟨Role.user, pyStrip "exit now"⟩])]
        ∧ (chat_step oracle_ok "S" (chat_init "S") (InputEvent.line "exit now")).terminated = false :=
  ⟨by decide,
   noncommand_input_is_forwarded oracle_ok "S" "exit now" (chat_init "S")
     (by decide) (by decide) (by decide)⟩

/-- C10: after any session prefix, a `clear` input resets the transcript to
exactly the system turn computed at session start (same prompt, same
embedded judgment text), emits no external call, and no iteration of the
session ever invoked the document loader. -/
theorem clear_restores_session_start_system_turn :
    ∀ (oracle : List Msg → Except String String) (judgment raw : String) (inputs : List InputEvent),
      pyLower (pyStrip raw) = "clear" →
      (chat_step oracle (create_system_prompt judgment)
          (chat_with_openai oracle judgment inputs).msgs (InputEvent.line raw)).msgs
        = chat_init (create_system_prompt judgment)
      ∧ (chat_step oracle (create_system_prompt judgment)
          (chat_with_openai oracle judgment inputs).msgs (InputEvent.line raw)).events = []
      ∧ loader_free (chat_with_openai oracle judgment inputs).events := by
  intro oracle judgment raw inputs h
  have hc : ("clear" : String) ∉ exit_tokens := by decide
  have hne : pyStrip raw ≠ "" := by
    intro hb
    rw [hb] at h
    exact absurd h (by decide)
  refine ⟨?_, ?_, ?_⟩
  · simp [chat_step, h, hc, hne, chat_init]
  · simp [chat_step, h, hc, hne]
  · unfold chat_with_openai
    exact run_loop_loader_free oracle _ inputs _ (fun p hp => by simp at hp)

/-- Witness for C10: after one ordinary turn, ` Clear ` restores the
single system turn built from the original judgment text. -/
theorem clear_restores_session_start_system_turn_witness :
    pyLower (pyStrip " Clear ") = "clear"
    ∧ (chat_step oracle_ok (create_system_prompt "J")
        (chat_with_openai oracle_ok "J" [InputEvent.line "hi"]).msgs
        (InputEvent.line " Clear ")).msgs
      = chat_init (create_system_prompt "J") :=
  ⟨by decide,
   (clear_restores_session_start_system_turn oracle_ok "J" " Clear "
     [InputEvent.line "hi"] (by decide)).1⟩

end LegalChatbot
